import Mathlib

/-!
Shallow embedding of `valohai_deployment_action/valohai_deployment.py`
(the deployment-and-alias-reconciliation workflow of lifebit-ai/mlops).

HTTP interactions are modelled by passing the environment's responses in
explicitly (a `World` of responses, one per request the script can make);
the workflow is a pure function from its arguments, the loaded
`valohai.yaml` endpoint configuration, the environment ids and the `World`
to the ordered list of requests it issues (`Event`s) and its final
`Outcome` (normal termination or the raised exception).

A response body is `Option β`: `some b` is a body whose `json.loads`
yields the parsed value `b`; `none` is a body that is not valid JSON, on
which `json.loads` raises `json.JSONDecodeError`.
-/

/-- Membership test of one character list at the head of another:
`strStarts n h` is true when `n` is an initial segment of `h`. -/
def strStarts : List Char → List Char → Bool
  | [], _ => true
  | _ :: _, [] => false
  | a :: as, b :: bs => a == b && strStarts as bs

/-- Substring occurrence on character lists (any position). -/
def containsSub (needle : List Char) : List Char → Bool
  | [] => needle.isEmpty
  | c :: rest => strStarts needle (c :: rest) || containsSub needle rest

/-- Python's `needle in haystack` on strings: substring containment. -/
def pyIn (needle haystack : String) : Bool :=
  containsSub needle.data haystack.data

/-- Python `dict` with `String` keys and values, as an association list in
key-insertion order with unique keys. -/
abbrev PyDict := List (String × String)

/-- Assignment `d[k] = v` on a Python dict: an existing key keeps its
position and gets the new value; a new key is appended. -/
def dictInsert (k v : String) : PyDict → PyDict
  | [] => [(k, v)]
  | (k', v') :: rest =>
      if k' == k then (k, v) :: rest else (k', v') :: dictInsert k v rest

/-- Python's `dict(pairs)` / dict comprehension: sequential insertion, a
later pair with the same key overrides the earlier value. -/
def dictOfPairs (ps : List (String × String)) : PyDict :=
  ps.foldl (fun d p => dictInsert p.1 p.2 d) []

/-- Python `d[k]` lookup (`none` models a `KeyError`). -/
def dictLookup (d : PyDict) (k : String) : Option String :=
  (d.find? (fun p => p.1 == k)).map (fun p => p.2)

/-- Python `d.keys()` in order. -/
def dictKeys (d : PyDict) : List String := d.map (fun p => p.1)

/-- Python `d.values()` in order. -/
def dictValues (d : PyDict) : List String := d.map (fun p => p.2)

/-- Python `set(a) == set(b)` on string collections. -/
def setEq (a b : List String) : Bool :=
  a.all (fun x => b.contains x) && b.all (fun x => a.contains x)

/-- One entry of the `files` list under `endpoint` in `valohai.yaml`. -/
structure FileSpec where
  name : String
  path : String
deriving DecidableEq

/-- The endpoint section of `valohai_config[0]["endpoint"]`:
whether the `"files"` key is present, and its entries when it is. -/
structure EndpointConfig where
  filesPresent : Bool
  files : List FileSpec
deriving DecidableEq

/-- One element of `datums["results"]` from the `datum-aliases/` listing:
the fields the script reads (`project.id`, `datum.name`, `datum.id`). -/
structure DatumEntry where
  projectId : String
  datumName : String
  datumId : String
deriving DecidableEq

/-- One element of the deployment-version-alias listing's `results`:
the fields the script reads (`name`, `url`). -/
structure AliasEntry where
  name : String
  url : String
deriving DecidableEq

/-- The fields of the parsed version-creation response body the script
reads: `endpoints[i]["version"]`, `commit["project_id"]`,
`endpoint_urls["predict"]`. -/
structure DeployBody where
  endpointVersions : List String
  commitProjectId : String
  predictUrl : String
deriving DecidableEq

/-- An HTTP response: status code, and `json.loads`-parsed body
(`none` when the body is not valid JSON). -/
structure HttpResp (β : Type) where
  status : Nat
  body : Option β
deriving DecidableEq

/-- Responses the environment returns for each request the script can
issue during one run. -/
structure World where
  fetchStatus : Nat
  datumResp : HttpResp (List DatumEntry)
  deployResp : HttpResp DeployBody
  aliasListResp : HttpResp (List AliasEntry)
  aliasUpdateResp : HttpResp Unit
  aliasCreateResp : HttpResp Unit
  probeStatus : Nat
deriving DecidableEq

/-- Termination of a run: `ok`, or the exception that aborted it.
`httpError` is `requests.HTTPError` from `raise_for_status`;
`jsonDecodeError` is `json.JSONDecodeError`; `indexError` is the
`IndexError`/`KeyError` on `response["endpoints"][0]`; the rest are the
script's own exception classes (both alias failures raise
`AliasNotCreatedException`, with different messages). -/
inductive Outcome where
  | ok
  | httpError (code : Nat)
  | jsonDecodeError
  | missingDatum
  | indexError
  | versionNotCreated (code : Nat)
  | aliasUpdateFailed (code : Nat)
  | aliasCreateFailed (code : Nat)
  | apiNotWorking
deriving DecidableEq

/-- Which canned probe file `check_api` loads:
`relationNer` is `mlops/test_data/relation_ner_test_data.json`,
`event` is `mlops/test_data/event_test_data.json`. -/
inductive ProbePayload where
  | relationNer
  | event
deriving DecidableEq

/-- The `payload` dict POSTed to `deployment-versions/`. -/
structure VersionPayload where
  commit : String
  deployment : String
  name : String
  enabled : Bool
  files : PyDict
  replicas : Int
  memory_limit : Int
  cpu_request : Rat
  vh_clean : String
  inherit_environment_variables : Bool
deriving DecidableEq

/-- One network request issued by the script, with the data it carries. -/
inductive Event where
  | fetchRepo
  | datumList
  | versionCreate (payload : VersionPayload)
  | aliasList (projectParam : String)
  | aliasUpdate (url target name : String)
  | aliasCreate (deployment target name : String)
  | probe (url : String) (delay : Nat) (data : ProbePayload)
deriving DecidableEq

/-- Recognizer for version-creation requests. -/
def Event.isVersionCreate : Event → Bool
  | .versionCreate _ => true
  | _ => false

/-- Recognizer for alias-update requests. -/
def Event.isAliasUpdate : Event → Bool
  | .aliasUpdate _ _ _ => true
  | _ => false

/-- Recognizer for alias-create requests. -/
def Event.isAliasCreate : Event → Bool
  | .aliasCreate _ _ _ => true
  | _ => false

/-- Recognizer for the requests that follow version creation:
alias listing, alias update, alias create, endpoint probe. -/
def Event.isAliasOrProbe : Event → Bool
  | .aliasList _ => true
  | .aliasUpdate _ _ _ => true
  | .aliasCreate _ _ _ => true
  | .probe _ _ _ => true
  | _ => false

/-- The dict `required_data_files` built from `valohai.yaml`:
`dict((file["name"], file["path"]) for file in ...["files"])`. -/
def requiredFilesDict (cfg : EndpointConfig) : PyDict :=
  dictOfPairs (cfg.files.map fun f => (f.name, f.path))

/-- The dict `datum_ids` built from the datum-aliases listing:
for each result scoped to the project, `datum_ids[name] = id`
(a later entry with the same name overrides an earlier one). -/
def resolvedDatumIds (projectId : String) (results : List DatumEntry) : PyDict :=
  (results.filter fun d => d.projectId == projectId).foldl
    (fun m d => dictInsert d.datumName d.datumId m) []

/-- The returned mapping `{file: datum_ids[path] for file, path in
required_data_files.items()}`. The `.getD ""` arm is unreachable when the
guarding set equality holds (every path is then a key of `datum_ids`). -/
def mapRequired (required datum_ids : PyDict) : PyDict :=
  required.map fun fp => (fp.1, (dictLookup datum_ids fp.2).getD "")

/-- Embedding of `get_datum_ids_of_files_for_deployment()`. The `Bool`
records whether the `datum-aliases/` GET request was issued; the `Except`
is the returned dict or the raised exception. `raise_for_status` raises
exactly for status codes 400–599. -/
def get_datum_ids_of_files_for_deployment (cfg : EndpointConfig)
    (projectId : String) (datumResp : HttpResp (List DatumEntry)) :
    Bool × Except Outcome PyDict :=
  if cfg.filesPresent = false then
    (false, Except.ok [])
  else
    let required_data_files := requiredFilesDict cfg
    if required_data_files.isEmpty then
      if setEq (dictValues required_data_files) (dictKeys []) then
        (false, Except.ok (mapRequired required_data_files []))
      else
        (false, Except.error Outcome.missingDatum)
    else if 400 ≤ datumResp.status ∧ datumResp.status < 600 then
      (true, Except.error (Outcome.httpError datumResp.status))
    else
      match datumResp.body with
      | none => (true, Except.error Outcome.jsonDecodeError)
      | some results =>
          let datum_ids := resolvedDatumIds projectId results
          if setEq (dictValues required_data_files) (dictKeys datum_ids) then
            (true, Except.ok (mapRequired required_data_files datum_ids))
          else
            (true, Except.error Outcome.missingDatum)

/-- The module-level `DELAY_TIMES` dict. -/
def DELAY_TIMES (k : String) : Nat :=
  if k == "relation" then 1800
  else if k == "ner" then 600
  else if k == "event" then 1200
  else 0

/-- Delay selection of `check_api`: `'real-relationship' in url` is tested
first, then `"ner_v1_aug_21" in url`, else the event delay. -/
def check_api_delay (url : String) : Nat :=
  if pyIn "real-relationship" url then DELAY_TIMES "relation"
  else if pyIn "ner_v1_aug_21" url then DELAY_TIMES "ner"
  else DELAY_TIMES "event"

/-- Probe-payload selection of `check_api`: the relation and NER markers
share one payload file; anything else gets the event payload. -/
def check_api_data (url : String) : ProbePayload :=
  if pyIn "real-relationship" url || pyIn "ner_v1_aug_21" url then
    ProbePayload.relationNer
  else
    ProbePayload.event

/-- Embedding of `check_api(url)`: the probe request it sends (with the
selected sleep duration and payload) and its outcome — non-200 raises
`ApiNotWorkingException`. -/
def check_api (url : String) (probeStatus : Nat) : Event × Outcome :=
  (Event.probe url (check_api_delay url) (check_api_data url),
   if probeStatus ≠ 200 then Outcome.apiNotWorking else Outcome.ok)

/-- Embedding of `create_version(branch, commit_id, replicas,
memory_limit, cpu_request, alias_name)`. Returns the ordered requests
issued and the outcome. The repo-fetch POST is issued first and its
response is never read. The version-creation response body is parsed by
`json.loads` before its status code is inspected; each alias response
body is likewise parsed (it is logged) before its status check.
`cpu_request` is a Python float on which the script does no arithmetic;
it is carried as an exact `Rat`. -/
def create_version (branch commit_id : String) (replicas memory_limit : Int)
    (cpu_request : Rat) (alias_name : String) (cfg : EndpointConfig)
    (projectId deploymentId : String) (w : World) : List Event × Outcome :=
  match get_datum_ids_of_files_for_deployment cfg projectId w.datumResp with
  | (called, r) =>
    let ev1 : List Event :=
      Event.fetchRepo :: (if called then [Event.datumList] else [])
    match r with
    | Except.error e => (ev1, e)
    | Except.ok datum_ids =>
      let payload : VersionPayload :=
        { commit := commit_id
          deployment := deploymentId
          name := branch ++ "." ++ commit_id
          enabled := true
          files := datum_ids
          replicas := replicas
          memory_limit := memory_limit
          cpu_request := cpu_request
          vh_clean := "1"
          inherit_environment_variables := true }
      let ev2 := ev1 ++ [Event.versionCreate payload]
      match w.deployResp.body with
      | none => (ev2, Outcome.jsonDecodeError)
      | some response =>
        if w.deployResp.status ≠ 201 then
          (ev2, Outcome.versionNotCreated w.deployResp.status)
        else
          match response.endpointVersions with
          | [] => (ev2, Outcome.indexError)
          | target :: _ =>
            let ev3 := ev2 ++ [Event.aliasList response.commitProjectId]
            match w.aliasListResp.body with
            | none => (ev3, Outcome.jsonDecodeError)
            | some aliasResults =>
              match aliasResults.find? (fun a => alias_name == a.name) with
              | some a =>
                let ev4 := ev3 ++ [Event.aliasUpdate a.url target alias_name]
                match w.aliasUpdateResp.body with
                | none => (ev4, Outcome.jsonDecodeError)
                | some _ =>
                  if w.aliasUpdateResp.status ≠ 200 then
                    (ev4, Outcome.aliasUpdateFailed w.aliasUpdateResp.status)
                  else
                    let pr := check_api response.predictUrl w.probeStatus
                    (ev4 ++ [pr.1], pr.2)
              | none =>
                let ev4 :=
                  ev3 ++ [Event.aliasCreate deploymentId target alias_name]
                match w.aliasCreateResp.body with
                | none => (ev4, Outcome.jsonDecodeError)
                | some _ =>
                  if w.aliasCreateResp.status ≠ 201 then
                    (ev4, Outcome.aliasCreateFailed w.aliasCreateResp.status)
                  else
                    let pr := check_api response.predictUrl w.probeStatus
                    (ev4 ++ [pr.1], pr.2)

/-- Parsed command-line arguments of the script. -/
structure Args where
  branch : String
  commit_id : String
  replicas : Int
  memory_limit : Int
  cpu_request : Rat
  alias_name : String
  commit_message : Option String
deriving DecidableEq

/-- The `__main__` cancellation test: the commit message is present and
contains one of the opt-out markers (Python `in`, case-sensitive). -/
def shouldCancel (msg : Option String) : Bool :=
  match msg with
  | none => false
  | some m =>
      pyIn "do-not-deploy" m || pyIn "dnd" m || pyIn "read-me-like" m

/-- Embedding of the `__main__` block after argument parsing: either the
deployment is cancelled (no requests, exit code 0), or `create_version`
runs — exit code 0 on normal return, 1 on an uncaught exception. -/
def mainRun (args : Args) (cfg : EndpointConfig)
    (projectId deploymentId : String) (w : World) : List Event × Nat :=
  if shouldCancel args.commit_message then
    ([], 0)
  else
    match create_version args.branch args.commit_id args.replicas
        args.memory_limit args.cpu_request args.alias_name cfg projectId
        deploymentId w with
    | (evs, Outcome.ok) => (evs, 0)
    | (evs, _) => (evs, 1)

/-- Bundled arguments of one `create_version` run (the CLI arguments that
reach it, the loaded endpoint configuration and the environment ids). -/
structure RunArgs where
  branch : String
  commit_id : String
  replicas : Int
  memory_limit : Int
  cpu_request : Rat
  alias_name : String
  cfg : EndpointConfig
  projectId : String
  deploymentId : String
deriving DecidableEq

/-- One `create_version` run with bundled arguments. -/
def run (a : RunArgs) (w : World) : List Event × Outcome :=
  create_version a.branch a.commit_id a.replicas a.memory_limit a.cpu_request
    a.alias_name a.cfg a.projectId a.deploymentId w

/-- Dict assignment never yields the empty dict. -/
theorem dictInsert_ne_nil (k v : String) (d : PyDict) :
    dictInsert k v d ≠ [] := by
  match d with
  | [] => simp [dictInsert]
  | (k', v') :: rest =>
      unfold dictInsert
      split <;> simp

/-- Folding dict assignments over a nonempty accumulator stays nonempty. -/
theorem foldl_dictInsert_ne_nil (ps : List (String × String)) (d : PyDict)
    (hd : d ≠ []) :
    ps.foldl (fun m p => dictInsert p.1 p.2 m) d ≠ [] := by
  induction ps generalizing d with
  | nil => simpa using hd
  | cons p rest ih => exact ih _ (dictInsert_ne_nil _ _ _)

/-- A dict built from a nonempty pair list is nonempty. -/
theorem dictOfPairs_ne_nil (p : String × String) (ps : List (String × String)) :
    dictOfPairs (p :: ps) ≠ [] := by
  unfold dictOfPairs
  simp only [List.foldl_cons]
  exact foldl_dictInsert_ne_nil ps _ (dictInsert_ne_nil _ _ _)

/-- A nonempty `files` list in `valohai.yaml` yields a nonempty
`required_data_files` dict. -/
theorem requiredFilesDict_not_empty (cfg : EndpointConfig)
    (hne : cfg.files ≠ []) :
    (requiredFilesDict cfg).isEmpty = false := by
  rcases hf : cfg.files with _ | ⟨f, fs⟩
  · exact absurd hf hne
  · have h := dictOfPairs_ne_nil (f.name, f.path) (fs.map fun g => (g.name, g.path))
    unfold requiredFilesDict
    rw [hf]
    simp only [List.map_cons]
    simpa [List.isEmpty_iff] using h

/-- C7: when the endpoint configuration requires no files (the `files`
key absent, or present with no entries), the artifact resolver returns
the empty mapping and issues no network request. -/
theorem empty_required_files_no_call (cfg : EndpointConfig)
    (projectId : String) (datumResp : HttpResp (List DatumEntry))
    (h : cfg.filesPresent = false ∨ cfg.files = []) :
    get_datum_ids_of_files_for_deployment cfg projectId datumResp =
      (false, Except.ok []) := by
  rcases h with h | h
  · simp [get_datum_ids_of_files_for_deployment, h]
  · unfold get_datum_ids_of_files_for_deployment
    by_cases hp : cfg.filesPresent = false
    · simp [hp]
    · simp [hp, requiredFilesDict, h, dictOfPairs, setEq, dictValues,
        dictKeys, mapRequired]

/-- Witness for C7 at a concrete configuration with an empty `files`
list: the resolver returns the empty map without a network call. -/
theorem empty_required_files_no_call_witness :
    get_datum_ids_of_files_for_deployment ⟨true, []⟩ "proj" ⟨500, none⟩ =
      (false, Except.ok []) :=
  empty_required_files_no_call ⟨true, []⟩ "proj" ⟨500, none⟩ (Or.inr rfl)

/-- C4 (amended): the Endpoint Verifier tests the relation marker first.
A URL containing `real-relationship` gets the relation delay and the
shared relation/NER payload; otherwise one containing `ner_v1_aug_21`
gets the NER delay and the shared relation/NER payload; otherwise the
event delay and event payload. -/
theorem endpoint_verifier_selection (u : String) :
    (pyIn "real-relationship" u = true →
      check_api_delay u = DELAY_TIMES "relation" ∧
      check_api_data u = ProbePayload.relationNer) ∧
    (pyIn "real-relationship" u = false → pyIn "ner_v1_aug_21" u = true →
      check_api_delay u = DELAY_TIMES "ner" ∧
      check_api_data u = ProbePayload.relationNer) ∧
    (pyIn "real-relationship" u = false → pyIn "ner_v1_aug_21" u = false →
      check_api_delay u = DELAY_TIMES "event" ∧
      check_api_data u = ProbePayload.event) := by
  refine ⟨fun h => ?_, fun h1 h2 => ?_, fun h1 h2 => ?_⟩ <;>
    simp [check_api_delay, check_api_data, *]

/-- Witness for C4's amended selection rule at a URL carrying only the
NER marker: NER delay, shared relation/NER payload. -/
theorem endpoint_verifier_selection_witness :
    check_api_delay "https://e/ner_v1_aug_21/predict" = DELAY_TIMES "ner" ∧
    check_api_data "https://e/ner_v1_aug_21/predict" =
      ProbePayload.relationNer :=
  (endpoint_verifier_selection "https://e/ner_v1_aug_21/predict").2.1
    (by decide) (by decide)

/-- Counterexample to C4 as stated: a URL containing both markers
contains the NER marker, yet the selected delay is the relation delay
(1800), not the NER delay (600) — the relation test runs first. -/
theorem ner_marker_delay_counterexample :
    pyIn "ner_v1_aug_21" "real-relationship-ner_v1_aug_21" = true ∧
    check_api_delay "real-relationship-ner_v1_aug_21" ≠ DELAY_TIMES "ner" := by
  decide

/-- C5 (amended): duplicate matching catalog entries do not by
themselves abort resolution — with the `files` key present and nonempty,
a parseable catalog response and no HTTP error, resolution raises
`MissingDatumException` exactly when the required-path set differs from
the resolved-name set; duplicates merely overwrite (the last matching
entry's id wins). -/
theorem resolver_failure_iff_set_mismatch (cfg : EndpointConfig)
    (projectId : String) (resp : HttpResp (List DatumEntry))
    (results : List DatumEntry)
    (hfp : cfg.filesPresent = true)
    (hne : cfg.files ≠ [])
    (hs : ¬(400 ≤ resp.status ∧ resp.status < 600))
    (hb : resp.body = some results) :
    ((get_datum_ids_of_files_for_deployment cfg projectId resp).2 =
        Except.error Outcome.missingDatum ↔
      setEq (dictValues (requiredFilesDict cfg))
        (dictKeys (resolvedDatumIds projectId results)) = false) := by
  unfold get_datum_ids_of_files_for_deployment
  simp only [hfp, requiredFilesDict_not_empty cfg hne, hs, hb,
    Bool.false_eq_true, if_false, if_neg, ite_false]
  by_cases hc : setEq (dictValues (requiredFilesDict cfg))
      (dictKeys (resolvedDatumIds projectId results)) = true
  · simp [hc]
  · simp at hc
    simp [hc]

/-- Witness for C5's amended rule: a catalog where the one required path
matches two project-scoped entries; the sets match, so resolution does
not raise the missing-artifact error. -/
theorem resolver_failure_iff_set_mismatch_witness :
    (get_datum_ids_of_files_for_deployment ⟨true, [⟨"f", "p"⟩]⟩ "proj"
        ⟨200, some [⟨"proj", "p", "id1"⟩, ⟨"proj", "p", "id2"⟩]⟩).2 ≠
      Except.error Outcome.missingDatum := by
  have h := resolver_failure_iff_set_mismatch ⟨true, [⟨"f", "p"⟩]⟩ "proj"
    ⟨200, some [⟨"proj", "p", "id1"⟩, ⟨"proj", "p", "id2"⟩]⟩
    [⟨"proj", "p", "id1"⟩, ⟨"proj", "p", "id2"⟩]
    rfl (by decide) (by decide) rfl
  intro hcontra
  exact absurd (h.mp hcontra) (by decide)

/-- Counterexample to C5 as stated: the required path `p` matches two
catalog entries scoped to the project, yet the resolver produces a map
(the last entry's id wins) instead of aborting. -/
theorem duplicate_datum_counterexample :
    get_datum_ids_of_files_for_deployment ⟨true, [⟨"f", "p"⟩]⟩ "proj"
        ⟨200, some [⟨"proj", "p", "id1"⟩, ⟨"proj", "p", "id2"⟩]⟩ =
      (true, Except.ok [("f", "id2")]) := rfl

/-- Arguments of a run whose configuration requires no files. -/
def argsA : RunArgs :=
  ⟨"b", "c", 1, 0, 1, "staging", ⟨false, []⟩, "proj", "dep"⟩

/-- Arguments of a run whose configuration requires one file `p`. -/
def argsB : RunArgs :=
  ⟨"b", "c", 1, 0, 1, "staging", ⟨true, [⟨"f", "p"⟩]⟩, "proj", "dep"⟩

/-- Environment in which version creation is refused (status 400) with a
response body that is not valid JSON. -/
def badJsonWorld : World :=
  { fetchStatus := 200
    datumResp := ⟨200, some []⟩
    deployResp := ⟨400, none⟩
    aliasListResp := ⟨200, some []⟩
    aliasUpdateResp := ⟨200, some ()⟩
    aliasCreateResp := ⟨201, some ()⟩
    probeStatus := 200 }

/-- Environment in which version creation is refused (status 400) with a
parseable body. -/
def refusedWorld : World :=
  { badJsonWorld with deployResp := ⟨400, some ⟨["v1"], "proj", "u"⟩⟩ }

/-- Environment in which every request succeeds and the alias listing is
empty. -/
def okWorld : World :=
  { badJsonWorld with deployResp := ⟨201, some ⟨["v1"], "proj", "u"⟩⟩ }

/-- C10: `create_version` parses the version-creation response body as
JSON before looking at its status code, so a non-201 response with an
invalid-JSON body aborts with the JSON decode error, not with
`VersionNotCreatedException`. -/
theorem nonjson_body_decode_error (a : RunArgs) (w : World) (called : Bool)
    (dm : PyDict)
    (hdatum : get_datum_ids_of_files_for_deployment a.cfg a.projectId
      w.datumResp = (called, Except.ok dm))
    (hbody : w.deployResp.body = none)
    (_hstatus : w.deployResp.status ≠ 201) :
    (run a w).2 = Outcome.jsonDecodeError ∧
    (run a w).2 ≠ Outcome.versionNotCreated w.deployResp.status := by
  unfold run create_version
  rw [hdatum]
  simp [hbody]

/-- Witness for C10 at a concrete refused response with a non-JSON
body. -/
theorem nonjson_body_decode_error_witness :
    (run argsA badJsonWorld).2 = Outcome.jsonDecodeError ∧
    (run argsA badJsonWorld).2 ≠ Outcome.versionNotCreated 400 :=
  nonjson_body_decode_error argsA badJsonWorld false [] rfl rfl (by decide)

/-- Counterexample to C3 as stated: a version-creation response with
status 400 whose body is not valid JSON makes the run fail with the JSON
decode error, not with `VersionNotCreatedException`. -/
theorem version_creation_nonjson_counterexample :
    (run argsA badJsonWorld).2 = Outcome.jsonDecodeError ∧
    (run argsA badJsonWorld).2 ≠ Outcome.versionNotCreated 400 := by
  constructor
  · rfl
  · decide

/-- C3 (amended): a non-201 version-creation response whose body is
valid JSON aborts the run with `VersionNotCreatedException`, and no
alias-listing, alias-update, alias-create or endpoint-probe request is
issued afterwards. -/
theorem nonCreated_aborts_alias_and_probe (a : RunArgs) (w : World)
    (called : Bool) (dm : PyDict) (body : DeployBody)
    (hdatum : get_datum_ids_of_files_for_deployment a.cfg a.projectId
      w.datumResp = (called, Except.ok dm))
    (hbody : w.deployResp.body = some body)
    (hstatus : w.deployResp.status ≠ 201) :
    (run a w).2 = Outcome.versionNotCreated w.deployResp.status ∧
    (run a w).1.countP Event.isAliasOrProbe = 0 := by
  unfold run create_version
  rw [hdatum]
  cases called <;>
    simp [hbody, hstatus, Event.isAliasOrProbe, List.countP_cons,
      List.countP_append]

/-- Witness for C3's amended statement at a concrete refused response
with a parseable body. -/
theorem nonCreated_aborts_alias_and_probe_witness :
    (run argsA refusedWorld).2 = Outcome.versionNotCreated 400 ∧
    (run argsA refusedWorld).1.countP Event.isAliasOrProbe = 0 :=
  nonCreated_aborts_alias_and_probe argsA refusedWorld false []
    ⟨["v1"], "proj", "u"⟩ rfl rfl (by decide)

/-- C2: with a nonempty required-files list, a parseable catalog
response and a required-path set differing from the resolved-name set,
the run aborts with `MissingDatumException` and no deployment-version
creation request is sent. -/
theorem missing_artifacts_block_version_request (a : RunArgs) (w : World)
    (results : List DatumEntry)
    (hfp : a.cfg.filesPresent = true)
    (hne : a.cfg.files ≠ [])
    (hs : ¬(400 ≤ w.datumResp.status ∧ w.datumResp.status < 600))
    (hb : w.datumResp.body = some results)
    (hmis : setEq (dictValues (requiredFilesDict a.cfg))
      (dictKeys (resolvedDatumIds a.projectId results)) = false) :
    (run a w).2 = Outcome.missingDatum ∧
    (run a w).1.countP Event.isVersionCreate = 0 := by
  have hgd : get_datum_ids_of_files_for_deployment a.cfg a.projectId
      w.datumResp = (true, Except.error Outcome.missingDatum) := by
    unfold get_datum_ids_of_files_for_deployment
    simp [hfp, requiredFilesDict_not_empty a.cfg hne, hs, hb, hmis]
  unfold run create_version
  rw [hgd]
  simp [Event.isVersionCreate, List.countP_cons]

/-- Witness for C2: the catalog resolves no name for the one required
path, so the run stops at the missing-artifact error with no version
request. -/
theorem missing_artifacts_block_version_request_witness :
    (run argsB badJsonWorld).2 = Outcome.missingDatum ∧
    (run argsB badJsonWorld).1.countP Event.isVersionCreate = 0 :=
  missing_artifacts_block_version_request argsB badJsonWorld [] rfl
    (by decide) (by decide) rfl (by decide)

/-- C6: any version-creation request issued by a run carries the name
`branch ++ "." ++ commit_id`. -/
theorem version_name_is_branch_dot_commit (a : RunArgs) (w : World)
    (p : VersionPayload)
    (hp : Event.versionCreate p ∈ (run a w).1) :
    p.name = a.branch ++ "." ++ a.commit_id := by
  revert hp
  unfold run create_version
  repeat' split
  all_goals intro hp
  all_goals simp_all [check_api]

/-- Witness for C6: a concrete successful run issues the version request
named `b.c` for branch `b` and commit `c`. -/
theorem version_name_is_branch_dot_commit_witness :
    Event.versionCreate
        ⟨"c", "dep", "b.c", true, [], 1, 0, 1, "1", true⟩ ∈
      (run argsA okWorld).1 ∧
    VersionPayload.name ⟨"c", "dep", "b.c", true, [], 1, 0, 1, "1", true⟩ =
      "b" ++ "." ++ "c" :=
  ⟨by decide,
   version_name_is_branch_dot_commit argsA okWorld
     ⟨"c", "dep", "b.c", true, [], 1, 0, 1, "1", true⟩ (by decide)⟩

/-- C8: a present commit message containing one of the opt-out markers
(`dnd`, `do-not-deploy`, `read-me-like`, case-sensitive substring) makes
the process issue no network request and exit with code 0. -/
theorem dnd_commit_message_cancels (args : Args) (cfg : EndpointConfig)
    (projectId deploymentId : String) (w : World) (m : String)
    (hm : args.commit_message = some m)
    (h : (pyIn "dnd" m || pyIn "do-not-deploy" m ||
      pyIn "read-me-like" m) = true) :
    mainRun args cfg projectId deploymentId w = ([], 0) := by
  have hc : shouldCancel args.commit_message = true := by
    rw [hm]
    unfold shouldCancel
    cases h1 : pyIn "do-not-deploy" m <;> cases h2 : pyIn "dnd" m <;>
      cases h3 : pyIn "read-me-like" m <;> simp_all
  unfold mainRun
  simp [hc]

/-- Witness for C8: a commit message containing `dnd` cancels the run. -/
theorem dnd_commit_message_cancels_witness :
    mainRun ⟨"b", "c", 1, 0, 1, "staging", some "fix: dnd"⟩ ⟨false, []⟩
      "proj" "dep" okWorld = ([], 0) :=
  dnd_commit_message_cancels ⟨"b", "c", 1, 0, 1, "staging", some "fix: dnd"⟩
    ⟨false, []⟩ "proj" "dep" okWorld "fix: dnd" rfl (by decide)

/-- The artifact resolver only raises after it has issued the catalog
request: an error result always reports the request as made. -/
theorem get_datum_error_called (cfg : EndpointConfig) (projectId : String)
    (resp : HttpResp (List DatumEntry)) (called : Bool) (e : Outcome)
    (h : get_datum_ids_of_files_for_deployment cfg projectId resp =
      (called, Except.error e)) :
    called = true := by
  simp only [get_datum_ids_of_files_for_deployment] at h
  by_cases h1 : cfg.filesPresent = false
  · rw [if_pos h1] at h
    injection h with h2 h3
    exact Except.noConfusion h3
  · rw [if_neg h1] at h
    by_cases h2 : (requiredFilesDict cfg).isEmpty = true
    · have hreq : requiredFilesDict cfg = [] := List.isEmpty_iff.mp h2
      rw [if_pos h2, hreq] at h
      rw [if_pos (show setEq (dictValues ([] : PyDict))
        (dictKeys ([] : PyDict)) = true from rfl)] at h
      injection h with h3 h4
      exact Except.noConfusion h4
    · rw [if_neg h2] at h
      by_cases h3 : 400 ≤ resp.status ∧ resp.status < 600
      · rw [if_pos h3] at h
        injection h with h4 h5
        exact h4.symm
      · rw [if_neg h3] at h
        cases hb : resp.body with
        | none =>
            rw [hb] at h
            injection h with h4 h5
            exact h4.symm
        | some results =>
            rw [hb] at h
            dsimp only at h
            by_cases h4 : setEq (dictValues (requiredFilesDict cfg))
                (dictKeys (resolvedDatumIds projectId results)) = true
            · rw [if_pos h4] at h
              injection h with h5 h6
              exact Except.noConfusion h6
            · rw [if_neg h4] at h
              injection h with h5 h6
              exact h5.symm

/-- C9: the repository-sync response is never inspected — the run's
requests and outcome are the same for every sync status code, and the
workflow always proceeds past the sync request to a further request
(artifact resolution or version creation). -/
theorem sync_status_never_inspected (a : RunArgs) (w : World) (s : Nat) :
    run a { w with fetchStatus := s } = run a w ∧
    ∃ e t, (run a w).1 = Event.fetchRepo :: e :: t := by
  constructor
  · cases w
    rfl
  · rcases hgd : get_datum_ids_of_files_for_deployment a.cfg a.projectId
      w.datumResp with ⟨called, r⟩
    unfold run create_version
    rw [hgd]
    cases r with
    | error e =>
        have hc := get_datum_error_called a.cfg a.projectId w.datumResp
          called e hgd
        subst hc
        exact ⟨Event.datumList, [], rfl⟩
    | ok dm =>
        cases called <;> repeat' split
        all_goals first
          | exact ⟨_, _, rfl⟩
          | simp_all

/-- C1: after a successful version creation, the alias reconciler
updates the first listing entry matching the requested name (exactly one
update request, no create request, succeeding iff the update returns
HTTP 200); with no matching entry it creates the alias (exactly one
create request, no update request, succeeding iff the create returns
HTTP 201). -/
theorem alias_reconciler_spec (a : RunArgs) (w : World) (called : Bool)
    (dm : PyDict) (body : DeployBody) (target : String) (restV : List String)
    (results : List AliasEntry)
    (hdatum : get_datum_ids_of_files_for_deployment a.cfg a.projectId
      w.datumResp = (called, Except.ok dm))
    (hbody : w.deployResp.body = some body)
    (hstatus : w.deployResp.status = 201)
    (hends : body.endpointVersions = target :: restV)
    (hlist : w.aliasListResp.body = some results)
    (hub : w.aliasUpdateResp.body = some ())
    (hcb : w.aliasCreateResp.body = some ()) :
    (∀ e, results.find? (fun x => a.alias_name == x.name) = some e →
      ((run a w).1.countP Event.isAliasUpdate = 1 ∧
       (run a w).1.countP Event.isAliasCreate = 0 ∧
       Event.aliasUpdate e.url target a.alias_name ∈ (run a w).1 ∧
       ((run a w).2 = Outcome.aliasUpdateFailed w.aliasUpdateResp.status ↔
         w.aliasUpdateResp.status ≠ 200))) ∧
    (results.find? (fun x => a.alias_name == x.name) = none →
      ((run a w).1.countP Event.isAliasCreate = 1 ∧
       (run a w).1.countP Event.isAliasUpdate = 0 ∧
       Event.aliasCreate a.deploymentId target a.alias_name ∈ (run a w).1 ∧
       ((run a w).2 = Outcome.aliasCreateFailed w.aliasCreateResp.status ↔
         w.aliasCreateResp.status ≠ 201))) := by
  constructor
  · intro e hfind
    unfold run create_version
    rw [hdatum]
    by_cases h200 : w.aliasUpdateResp.status = 200
    · by_cases hpr : w.probeStatus = 200 <;>
        cases called <;>
          simp [hbody, hstatus, hends, hlist, hfind, hub, h200, hpr, check_api,
            Event.isAliasUpdate, Event.isAliasCreate, List.countP_cons,
            List.countP_append]
    · cases called <;>
        simp [hbody, hstatus, hends, hlist, hfind, hub, h200, check_api,
          Event.isAliasUpdate, Event.isAliasCreate, List.countP_cons,
          List.countP_append]
  · intro hfind
    unfold run create_version
    rw [hdatum]
    by_cases h201 : w.aliasCreateResp.status = 201
    · by_cases hpr : w.probeStatus = 200 <;>
        cases called <;>
          simp [hbody, hstatus, hends, hlist, hfind, hcb, h201, hpr, check_api,
            Event.isAliasUpdate, Event.isAliasCreate, List.countP_cons,
            List.countP_append]
    · cases called <;>
        simp [hbody, hstatus, hends, hlist, hfind, hcb, h201, check_api,
          Event.isAliasUpdate, Event.isAliasCreate, List.countP_cons,
          List.countP_append]

/-- Environment like `okWorld` whose alias listing already contains an
alias named `staging`. -/
def aliasFoundWorld : World :=
  { okWorld with aliasListResp := ⟨200, some [⟨"staging", "https://a/1"⟩]⟩ }

/-- Witness for C1 in the update branch: the listing holds a `staging`
alias, so the run issues exactly one update request, no create request,
and the update succeeds on HTTP 200. -/
theorem alias_reconciler_spec_witness :
    (run argsA aliasFoundWorld).1.countP Event.isAliasUpdate = 1 ∧
    (run argsA aliasFoundWorld).1.countP Event.isAliasCreate = 0 ∧
    Event.aliasUpdate "https://a/1" "v1" "staging" ∈
      (run argsA aliasFoundWorld).1 ∧
    ((run argsA aliasFoundWorld).2 = Outcome.aliasUpdateFailed 200 ↔
      (200 : Nat) ≠ 200) :=
  (alias_reconciler_spec argsA aliasFoundWorld false [] ⟨["v1"], "proj", "u"⟩
      "v1" [] [⟨"staging", "https://a/1"⟩] rfl rfl rfl rfl rfl rfl rfl).1
    ⟨"staging", "https://a/1"⟩ (by decide)
